import Mathlib

/-!
Shallow embedding of the computational core of the TrackingCalories
application (src/app.py): unit-conversion helpers, `calculate_metrics`
and `exercise_recommendations`.  Python floats are modelled by exact
rationals (ℚ); Python's `round` (banker's rounding, round-half-to-even)
and `int` (truncation toward zero) are modelled explicitly.
-/

namespace TrackingCalories

/-- Python `round(x)`: round half to even, returning an integer. -/
def pyround (x : ℚ) : ℤ :=
  let f : ℤ := ⌊x⌋
  let r : ℚ := x - f
  if r < 1/2 then f
  else if 1/2 < r then f + 1
  else if f % 2 = 0 then f else f + 1

/-- Python `round(x, 1)`: round to one decimal place, half to even. -/
def pyround1 (x : ℚ) : ℚ := (pyround (10 * x) : ℚ) / 10

/-- Python `int(x)` on a float: truncation toward zero. -/
def pytrunc (x : ℚ) : ℤ := if 0 ≤ x then ⌊x⌋ else ⌈x⌉

/-- The `ACTIVITY_MULTIPLIERS` dict from app.py, lines 75-81. -/
def ACTIVITY_MULTIPLIERS : List (String × ℚ) :=
  [("sedentary", 1.2),
   ("lightly_active", 1.375),
   ("moderately_active", 1.55),
   ("very_active", 1.725),
   ("extra_active", 1.9)]

/-- `ACTIVITY_MULTIPLIERS.get(key, 1.55)` (app.py line 121). -/
def activityGet (key : String) : ℚ :=
  match ACTIVITY_MULTIPLIERS.find? (fun kv => kv.1 == key) with
  | some kv => kv.2
  | none => 1.55

/-- `cm_to_m` (app.py lines 83-84). -/
def cm_to_m (cm : ℚ) : ℚ := cm / 100

/-- `kg_to_lbs` (app.py lines 86-87). -/
def kg_to_lbs (kg : ℚ) : ℚ := kg * 2.20462

/-- `lbs_to_kg` (app.py lines 89-90). -/
def lbs_to_kg (lbs : ℚ) : ℚ := lbs / 2.20462

/-- `inches_to_cm` (app.py lines 92-93). -/
def inches_to_cm (inches : ℚ) : ℚ := inches * 2.54

/-- `ft_in_to_cm` (app.py lines 95-96). -/
def ft_in_to_cm (ft inch : ℚ) : ℚ := inches_to_cm (ft * 12 + inch)

/-- The inline centimeters-to-inches conversion `p.height_in / 2.54`
used by the profile view (app.py line 252). -/
def cm_to_in (cm : ℚ) : ℚ := cm / 2.54

/-- The fields of the `Profile` model relevant to the computational
core (app.py lines 45-55).  Despite the column names, `height_in`
stores centimeters and `weight_lb` stores kilograms (the request
handlers convert on the way in, app.py lines 239-240). -/
structure Profile where
  height_in : Option ℚ
  weight_lb : Option ℚ
  age : Option ℤ
  sex : Option String
  activity : Option String
  goal : Option String
deriving DecidableEq

/-- The `Metrics` dataclass (app.py lines 98-103). -/
structure Metrics where
  bmi : Option ℚ
  bmr : Option ℤ
  tdee : Option ℤ
  target_calories : Option ℤ
deriving DecidableEq

/-- Python truthiness of an optional float: `None` and `0` are falsy. -/
def truthyQ : Option ℚ → Bool
  | none => false
  | some x => decide (x ≠ 0)

/-- Python truthiness of an optional int: `None` and `0` are falsy. -/
def truthyZ : Option ℤ → Bool
  | none => false
  | some x => decide (x ≠ 0)

/-- Python truthiness of an optional string: `None` and `""` are falsy. -/
def truthyS : Option String → Bool
  | none => false
  | some s => decide (s ≠ "")

/-- Python `str.upper()`, for the ASCII strings this application uses. -/
def pyUpper (s : String) : String := ⟨s.data.map Char.toUpper⟩

/-- Python `str.lower()`, for the ASCII strings this application uses. -/
def pyLower (s : String) : String := ⟨s.data.map Char.toLower⟩

/-- Python `x or default` for an optional string: `None` and `""`
fall back to the default. -/
def orDefault (o : Option String) (d : String) : String :=
  match o with
  | none => d
  | some s => if s = "" then d else s

/-- `calculate_metrics` (app.py lines 105-130). -/
def calculate_metrics : Option Profile → Metrics
  | none => ⟨none, none, none, none⟩
  | some p =>
    if truthyQ p.height_in && truthyQ p.weight_lb && truthyZ p.age && truthyS p.sex then
      let h := p.height_in.getD 0
      let w := p.weight_lb.getD 0
      let a := p.age.getD 0
      let s := pyUpper (p.sex.getD "")
      let bmi := pyround1 (w / (cm_to_m h) ^ 2)
      let bmr := 10 * w + 6.25 * h - 5 * (a : ℚ) + (if s = "M" then 5 else -161)
      let mult := activityGet (orDefault p.activity "moderately_active")
      let tdee := bmr * mult
      let target :=
        if pyLower (orDefault p.goal "maintain") = "lose" then
          max (pyround (tdee - 500)) (pytrunc bmr)
        else
          pyround tdee
      ⟨some bmi, some (pyround bmr), some (pyround tdee), some target⟩
    else
      ⟨none, none, none, none⟩

/-- One recommendation record from `exercise_recommendations`
(app.py lines 136-155): the dict keys `name`, `intensity`, `met`,
`duration_min`, `type`, `note`, with the keys a given record lacks
modelled as `none`. -/
structure Recommendation where
  name : String
  intensity : Option String
  met : Option ℚ
  duration_min : ℤ
  type : String
  note : Option String
deriving DecidableEq

/-- The fixed base catalog (app.py lines 136-143). -/
def baseCatalog : List Recommendation :=
  [⟨"Brisk Walking", some "Moderate", none, 30, "cardio", none⟩,
   ⟨"Jogging", some "Heavy", none, 20, "cardio", none⟩,
   ⟨"Cycling (leisure)", some "Low", none, 30, "cardio", none⟩,
   ⟨"Bodyweight Circuit", some "Moderate", none, 25, "strength", none⟩,
   ⟨"Swimming (moderate)", some "Moderate", none, 25, "cardio", none⟩,
   ⟨"Pilates/core", some "Low", none, 30, "mobility", none⟩]

/-- `exercise_recommendations` (app.py lines 132-155). -/
def exercise_recommendations : Option Profile → List Recommendation
  | none => []
  | some p =>
    let goal := pyLower (orDefault p.goal "maintain")
    if goal = "lose" then
      ((baseCatalog.filter (fun x => x.type == "cardio" || x.type == "strength")).map
        (fun x => ⟨x.name, x.intensity, x.met, x.duration_min + 10, x.type,
                   some "Fat-loss focus: try intervals."⟩))
      ++ [⟨"Walk after meals", none, some 3.3, 10, "habit",
           some "Light post-meal walk 2–3x/day"⟩]
    else
      baseCatalog ++ [⟨"Full-body strength 2x/week", none, some 5.0, 40, "strength", none⟩]

/-- C2: if the profile is absent, or any one of height, weight, age, sex is
missing (None) or zero (the empty string for sex), `calculate_metrics`
returns a Metrics value with all four fields unknown; the function is total,
so no input raises an error. -/
theorem incomplete_profile_all_unknown (p : Option Profile)
    (h : p = none ∨ ∃ q : Profile, p = some q ∧
      (q.height_in = none ∨ q.height_in = some 0 ∨
       q.weight_lb = none ∨ q.weight_lb = some 0 ∨
       q.age = none ∨ q.age = some 0 ∨
       q.sex = none ∨ q.sex = some "")) :
    calculate_metrics p = ⟨none, none, none, none⟩ := by
  rcases h with rfl | ⟨q, rfl, hq⟩
  · rfl
  · rcases hq with h1 | h1 | h1 | h1 | h1 | h1 | h1 | h1 <;>
      simp [calculate_metrics, truthyQ, truthyZ, truthyS, h1]

/-- Witness for C2 at a concrete profile missing its height. -/
theorem incomplete_profile_all_unknown_witness :
    calculate_metrics (some ⟨none, some 70, some 30, some "M", none, none⟩) =
      ⟨none, none, none, none⟩ :=
  incomplete_profile_all_unknown _ (Or.inr ⟨_, rfl, Or.inl rfl⟩)

/-- C4: for every complete profile, the bmr field equals the Mifflin-St Jeor
value 10×weight + 6.25×height − 5×age + (5 if sex is male else −161), rounded
to the nearest integer (Python rounding, half to even). -/
theorem bmr_mifflin_st_jeor (p : Profile)
    (hh : truthyQ p.height_in = true) (hw : truthyQ p.weight_lb = true)
    (ha : truthyZ p.age = true) (hs : truthyS p.sex = true) :
    (calculate_metrics (some p)).bmr =
      some (pyround (10 * p.weight_lb.getD 0 + 6.25 * p.height_in.getD 0
        - 5 * (p.age.getD 0 : ℚ)
        + (if pyUpper (p.sex.getD "") = "M" then 5 else -161))) := by
  simp [calculate_metrics, hh, hw, ha, hs]

/-- Witness for C4 at the 170 cm / 70 kg / 30 y / male profile. -/
theorem bmr_mifflin_st_jeor_witness :
    (calculate_metrics (some ⟨some 170, some 70, some 30, some "M", none, none⟩)).bmr =
      some 1618 := by
  have h := bmr_mifflin_st_jeor ⟨some 170, some 70, some 30, some "M", none, none⟩
    (by decide) (by decide) (by decide) (by decide)
  have hu : pyUpper "M" = "M" := by decide
  rw [h]
  norm_num [Option.getD_some, hu, pyround]

/-- C5: for every complete profile, the bmi field equals weight divided by
the square of the height converted to meters, rounded to one decimal place
(Python rounding, half to even). -/
theorem bmi_formula (p : Profile)
    (hh : truthyQ p.height_in = true) (hw : truthyQ p.weight_lb = true)
    (ha : truthyZ p.age = true) (hs : truthyS p.sex = true) :
    (calculate_metrics (some p)).bmi =
      some (pyround1 (p.weight_lb.getD 0 / (cm_to_m (p.height_in.getD 0)) ^ 2)) := by
  simp [calculate_metrics, hh, hw, ha, hs]

/-- Witness for C5 at the 170 cm / 70 kg / 30 y / male profile. -/
theorem bmi_formula_witness :
    (calculate_metrics (some ⟨some 170, some 70, some 30, some "M", none, none⟩)).bmi =
      some (121 / 5) := by
  have h := bmi_formula ⟨some 170, some 70, some 30, some "M", none, none⟩
    (by decide) (by decide) (by decide) (by decide)
  rw [h]
  norm_num [Option.getD_some, pyround1, pyround, cm_to_m]

/-- Evaluation of `calculate_metrics` at the spec's sample profile
(170 cm, 70 kg, 30 years, male, moderately active, maintain).  The raw
Mifflin-St Jeor value is 1617.5, so bmr rounds to 1618 and tdee is
round(1617.5 × 1.55) = round(2507.125) = 2507. -/
theorem sample_profile_eval :
    calculate_metrics
        (some ⟨some 170, some 70, some 30, some "M", some "moderately_active", some "maintain"⟩) =
      ⟨some (121 / 5), some 1618, some 2507, some 2507⟩ := by
  have hu : pyUpper "M" = "M" := by decide
  have hl : pyLower (orDefault (some "maintain") "maintain") ≠ "lose" := by decide
  have t1 : truthyQ (some (170 : ℚ)) = true := by decide
  have t2 : truthyQ (some (70 : ℚ)) = true := by decide
  have t3 : truthyZ (some (30 : ℤ)) = true := by decide
  have t4 : truthyS (some "M") = true := by decide
  have hag : activityGet (orDefault (some "moderately_active") "moderately_active") = 1.55 := rfl
  norm_num [calculate_metrics, Option.getD, hu, hag, hl, t1, t2, t3, t4, cm_to_m,
    pyround, pyround1, pytrunc]

/-- Evaluation of `calculate_metrics` at the same body data but with
activity sedentary and goal lose.  The raw BMR is 1617.5, tdee is
1617.5 × 1.2 = 1941, and the target is
max(round(1941 − 500), int(1617.5)) = max(1441, 1617) = 1617, one below
the rounded bmr field 1618. -/
theorem lose_profile_eval :
    calculate_metrics
        (some ⟨some 170, some 70, some 30, some "M", some "sedentary", some "lose"⟩) =
      ⟨some (121 / 5), some 1618, some 1941, some 1617⟩ := by
  have hu : pyUpper "M" = "M" := by decide
  have hl : pyLower (orDefault (some "lose") "maintain") = "lose" := by decide
  have t1 : truthyQ (some (170 : ℚ)) = true := by decide
  have t2 : truthyQ (some (70 : ℚ)) = true := by decide
  have t3 : truthyZ (some (30 : ℤ)) = true := by decide
  have t4 : truthyS (some "M") = true := by decide
  have hag : activityGet (orDefault (some "sedentary") "moderately_active") = 1.2 := rfl
  norm_num [calculate_metrics, Option.getD, hu, hag, hl, t1, t2, t3, t4, cm_to_m,
    pyround, pyround1, pytrunc, max_def]

/-- C1 counterexample: at the complete male profile 170 cm / 70 kg / 30 y
with activity sedentary and goal lose, the returned target is 1617 while
the claimed value max(round(TDEE − 500), round(BMR)) is 1618, which is
also the bmr field returned in the same result; so the target is below
the returned BMR, refuting the claim. -/
theorem lose_target_claim_counterexample :
    (calculate_metrics
        (some ⟨some 170, some 70, some 30, some "M", some "sedentary", some "lose"⟩)).target_calories =
      some 1617 ∧
    (calculate_metrics
        (some ⟨some 170, some 70, some 30, some "M", some "sedentary", some "lose"⟩)).bmr =
      some 1618 ∧
    (1617 : ℤ) < 1618 ∧
    max (pyround ((10 * 70 + 6.25 * 170 - 5 * 30 + 5 : ℚ) * 1.2 - 500))
        (pyround (10 * 70 + 6.25 * 170 - 5 * 30 + 5 : ℚ)) = 1618 := by
  refine ⟨by rw [lose_profile_eval], by rw [lose_profile_eval], by norm_num, ?_⟩
  norm_num [pyround, max_def]

/-- C1 as amended: for every complete profile whose lowercased goal is
"lose", the target is max(round(TDEE − 500), int(BMR)), where int
truncates the full-precision BMR toward zero; the target is therefore
never below that truncated BMR (though it may be one below the rounded
bmr field). -/
theorem lose_target_uses_truncated_bmr (p : Profile)
    (hh : truthyQ p.height_in = true) (hw : truthyQ p.weight_lb = true)
    (ha : truthyZ p.age = true) (hs : truthyS p.sex = true)
    (hg : pyLower (orDefault p.goal "maintain") = "lose") :
    ∃ t : ℤ, (calculate_metrics (some p)).target_calories = some t ∧
      t = max (pyround ((10 * p.weight_lb.getD 0 + 6.25 * p.height_in.getD 0
              - 5 * (p.age.getD 0 : ℚ)
              + (if pyUpper (p.sex.getD "") = "M" then 5 else -161))
            * activityGet (orDefault p.activity "moderately_active") - 500))
          (pytrunc (10 * p.weight_lb.getD 0 + 6.25 * p.height_in.getD 0
              - 5 * (p.age.getD 0 : ℚ)
              + (if pyUpper (p.sex.getD "") = "M" then 5 else -161))) ∧
      pytrunc (10 * p.weight_lb.getD 0 + 6.25 * p.height_in.getD 0
          - 5 * (p.age.getD 0 : ℚ)
          + (if pyUpper (p.sex.getD "") = "M" then 5 else -161)) ≤ t := by
    refine ⟨_, ?_, rfl, le_max_right _ _⟩
    simp [calculate_metrics, hh, hw, ha, hs, hg]

/-- Witness for the amended C1 at the sedentary lose profile: the target
exists and is at least the truncated raw BMR int(1617.5) = 1617. -/
theorem lose_target_uses_truncated_bmr_witness :
    ∃ t : ℤ,
      (calculate_metrics
          (some ⟨some 170, some 70, some 30, some "M", some "sedentary", some "lose"⟩)).target_calories =
        some t ∧
      pytrunc (10 * 70 + 6.25 * 170 - 5 * 30 + 5 : ℚ) ≤ t := by
  obtain ⟨t, ht, -, hle⟩ :=
    lose_target_uses_truncated_bmr
      ⟨some 170, some 70, some 30, some "M", some "sedentary", some "lose"⟩
      (by decide) (by decide) (by decide) (by decide) (by decide)
  have hu : pyUpper "M" = "M" := by decide
  refine ⟨t, ht, ?_⟩
  simpa [Option.getD_some, hu] using hle

/-- C3 counterexample: at the sample profile (170 cm, 70 kg, 30 y, male,
moderately active, maintain) the code returns bmr = 1618 and tdee = 2507,
not the claimed 1674 and 2595 (the raw Mifflin-St Jeor value is 1617.5,
not 1673.5). -/
theorem sample_profile_claim_counterexample :
    ¬ ((calculate_metrics
          (some ⟨some 170, some 70, some 30, some "M", some "moderately_active", some "maintain"⟩)).bmr =
        some 1674 ∧
       (calculate_metrics
          (some ⟨some 170, some 70, some 30, some "M", some "moderately_active", some "maintain"⟩)).tdee =
        some 2595) := by
  rintro ⟨h1, -⟩
  rw [sample_profile_eval] at h1
  simp at h1

/-- C3 as amended: at the sample profile the code returns bmi = 24.2,
bmr = 1618, tdee = 2507 = round(1617.5 × 1.55) and target = tdee = 2507,
since the raw Mifflin-St Jeor value 10×70 + 6.25×170 − 5×30 + 5 is
1617.5. -/
theorem sample_profile_metrics :
    calculate_metrics
        (some ⟨some 170, some 70, some 30, some "M", some "moderately_active", some "maintain"⟩) =
      ⟨some 24.2, some 1618, some 2507, some 2507⟩ ∧
    (10 * 70 + 6.25 * 170 - 5 * 30 + 5 : ℚ) = 1617.5 ∧
    pyround ((10 * 70 + 6.25 * 170 - 5 * 30 + 5 : ℚ) * 1.55) = 2507 := by
  refine ⟨?_, by norm_num, by norm_num [pyround]⟩
  rw [sample_profile_eval]
  norm_num

/-- C6: for every complete profile, tdee is the raw BMR scaled by the
activity multiplier looked up in the fixed five-entry table, and any
activity value that is absent, empty, or not one of the five keys uses
multiplier 1.55. -/
theorem tdee_activity_multiplier (p : Profile)
    (hh : truthyQ p.height_in = true) (hw : truthyQ p.weight_lb = true)
    (ha : truthyZ p.age = true) (hs : truthyS p.sex = true) :
    (calculate_metrics (some p)).tdee =
      some (pyround ((10 * p.weight_lb.getD 0 + 6.25 * p.height_in.getD 0
          - 5 * (p.age.getD 0 : ℚ)
          + (if pyUpper (p.sex.getD "") = "M" then 5 else -161))
        * activityGet (orDefault p.activity "moderately_active"))) ∧
    activityGet "sedentary" = 1.2 ∧
    activityGet "lightly_active" = 1.375 ∧
    activityGet "moderately_active" = 1.55 ∧
    activityGet "very_active" = 1.725 ∧
    activityGet "extra_active" = 1.9 ∧
    (∀ s : String, s ≠ "sedentary" → s ≠ "lightly_active" → s ≠ "moderately_active" →
      s ≠ "very_active" → s ≠ "extra_active" → activityGet s = 1.55) ∧
    orDefault none "moderately_active" = "moderately_active" ∧
    orDefault (some "") "moderately_active" = "moderately_active" := by
  refine ⟨by simp [calculate_metrics, hh, hw, ha, hs], rfl, rfl, rfl, rfl, rfl, ?_, rfl, rfl⟩
  intro s h1 h2 h3 h4 h5
  have e1 : ("sedentary" == s) = false := beq_eq_false_iff_ne.mpr (Ne.symm h1)
  have e2 : ("lightly_active" == s) = false := beq_eq_false_iff_ne.mpr (Ne.symm h2)
  have e3 : ("moderately_active" == s) = false := beq_eq_false_iff_ne.mpr (Ne.symm h3)
  have e4 : ("very_active" == s) = false := beq_eq_false_iff_ne.mpr (Ne.symm h4)
  have e5 : ("extra_active" == s) = false := beq_eq_false_iff_ne.mpr (Ne.symm h5)
  simp [activityGet, ACTIVITY_MULTIPLIERS, List.find?, e1, e2, e3, e4, e5]

/-- Witness for C6: at the sample profile tdee is 2507, and an
unrecognized activity string falls back to multiplier 1.55. -/
theorem tdee_activity_multiplier_witness :
    (calculate_metrics
        (some ⟨some 170, some 70, some 30, some "M", some "moderately_active", some "maintain"⟩)).tdee =
      some 2507 ∧
    activityGet "unrecognized" = 1.55 := by
  have h := tdee_activity_multiplier
    ⟨some 170, some 70, some 30, some "M", some "moderately_active", some "maintain"⟩
    (by decide) (by decide) (by decide) (by decide)
  have hu : pyUpper "M" = "M" := by decide
  have hag : activityGet (orDefault (some "moderately_active") "moderately_active") = 1.55 := rfl
  refine ⟨?_, ?_⟩
  · rw [h.1]
    norm_num [Option.getD_some, hu, hag, pyround]
  · exact (h.2.2.2.2.2.2.1) "unrecognized"
      (by decide) (by decide) (by decide) (by decide) (by decide)

/-- C8: composing the kilograms-to-pounds and pounds-to-kilograms helpers,
and the inches-to-centimeters helper with the centimeters-to-inches
conversion, returns every positive value exactly, hence within the 1e-6
relative tolerance the spec asks for. -/
theorem unit_conversion_roundtrip (v : ℚ) (hv : 0 < v) :
    |kg_to_lbs (lbs_to_kg v) - v| ≤ v * (1 / 1000000) ∧
    |cm_to_in (inches_to_cm v) - v| ≤ v * (1 / 1000000) := by
  have h1 : kg_to_lbs (lbs_to_kg v) = v := by
    rw [kg_to_lbs, lbs_to_kg, div_mul_cancel₀]
    norm_num
  have h2 : cm_to_in (inches_to_cm v) = v := by
    rw [cm_to_in, inches_to_cm, mul_div_cancel_right₀]
    norm_num
  rw [h1, h2, sub_self, abs_zero]
  constructor <;> positivity

/-- Witness for C8 at v = 1. -/
theorem unit_conversion_roundtrip_witness :
    (0 : ℚ) < 1 ∧
    (|kg_to_lbs (lbs_to_kg 1) - 1| ≤ 1 * (1 / 1000000) ∧
     |cm_to_in (inches_to_cm 1) - 1| ≤ 1 * (1 / 1000000)) :=
  ⟨by norm_num, unit_conversion_roundtrip 1 (by norm_num)⟩

/-- C9: for every complete profile the tdee field rounds the product of
the unrounded BMR and the activity multiplier exactly once, and the lose
branch compares against the truncated unrounded BMR; at the raw BMR
1617.5 with multiplier 1.55 this differs both from rounding the BMR
before multiplying (2507 vs 2508) and from the rounded bmr field
(1617 vs 1618). -/
theorem tdee_rounding_order (p : Profile)
    (hh : truthyQ p.height_in = true) (hw : truthyQ p.weight_lb = true)
    (ha : truthyZ p.age = true) (hs : truthyS p.sex = true) :
    ((calculate_metrics (some p)).tdee =
      some (pyround ((10 * p.weight_lb.getD 0 + 6.25 * p.height_in.getD 0
          - 5 * (p.age.getD 0 : ℚ)
          + (if pyUpper (p.sex.getD "") = "M" then 5 else -161))
        * activityGet (orDefault p.activity "moderately_active")))) ∧
    (pyLower (orDefault p.goal "maintain") = "lose" →
      (calculate_metrics (some p)).target_calories =
        some (max (pyround ((10 * p.weight_lb.getD 0 + 6.25 * p.height_in.getD 0
                - 5 * (p.age.getD 0 : ℚ)
                + (if pyUpper (p.sex.getD "") = "M" then 5 else -161))
              * activityGet (orDefault p.activity "moderately_active") - 500))
            (pytrunc (10 * p.weight_lb.getD 0 + 6.25 * p.height_in.getD 0
                - 5 * (p.age.getD 0 : ℚ)
                + (if pyUpper (p.sex.getD "") = "M" then 5 else -161))))) ∧
    pyround ((3235 / 2 : ℚ) * 1.55) ≠ pyround ((pyround (3235 / 2 : ℚ) : ℚ) * 1.55) ∧
    pytrunc (3235 / 2 : ℚ) ≠ pyround (3235 / 2 : ℚ) := by
  refine ⟨by simp [calculate_metrics, hh, hw, ha, hs],
    fun hg => by simp [calculate_metrics, hh, hw, ha, hs, hg], ?_, ?_⟩
  · norm_num [pyround]
  · norm_num [pyround, pytrunc]

/-- Witness for C9: at the sample maintain profile the tdee field is
round(1617.5 × 1.55) = 2507. -/
theorem tdee_rounding_order_witness :
    (calculate_metrics
        (some ⟨some 170, some 70, some 30, some "M", some "moderately_active", some "maintain"⟩)).tdee =
      some 2507 := by
  obtain ⟨h1, -, -, -⟩ := tdee_rounding_order
    ⟨some 170, some 70, some 30, some "M", some "moderately_active", some "maintain"⟩
    (by decide) (by decide) (by decide) (by decide)
  have hu : pyUpper "M" = "M" := by decide
  have hag : activityGet (orDefault (some "moderately_active") "moderately_active") = 1.55 := rfl
  rw [h1]
  norm_num [Option.getD_some, hu, hag, pyround]

/-- C7: for every present profile, goal "lose" (after lowercasing) yields
exactly the cardio and strength entries of the base catalog, each with
duration increased by 10 minutes and an interval-training note, followed
by exactly one appended post-meal-walk habit entry; any other goal yields
the full 6-entry base catalog plus exactly one appended strength entry,
7 entries in total. -/
theorem exercise_recommendations_by_goal (p : Profile) :
    (pyLower (orDefault p.goal "maintain") = "lose" →
      exercise_recommendations (some p) =
        [⟨"Brisk Walking", some "Moderate", none, 40, "cardio",
            some "Fat-loss focus: try intervals."⟩,
         ⟨"Jogging", some "Heavy", none, 30, "cardio",
            some "Fat-loss focus: try intervals."⟩,
         ⟨"Cycling (leisure)", some "Low", none, 40, "cardio",
            some "Fat-loss focus: try intervals."⟩,
         ⟨"Bodyweight Circuit", some "Moderate", none, 35, "strength",
            some "Fat-loss focus: try intervals."⟩,
         ⟨"Swimming (moderate)", some "Moderate", none, 35, "cardio",
            some "Fat-loss focus: try intervals."⟩,
         ⟨"Walk after meals", none, some 3.3, 10, "habit",
            some "Light post-meal walk 2–3x/day"⟩]) ∧
    (pyLower (orDefault p.goal "maintain") ≠ "lose" →
      exercise_recommendations (some p) =
        baseCatalog ++
          [⟨"Full-body strength 2x/week", none, some 5.0, 40, "strength", none⟩] ∧
      (baseCatalog ++
        [(⟨"Full-body strength 2x/week", none, some 5.0, 40, "strength", none⟩ :
          Recommendation)]).length = 7) := by
  constructor
  · intro hg
    simp only [exercise_recommendations, hg, if_pos, baseCatalog, List.filter, List.map]
    norm_num
  · intro hg
    refine ⟨?_, by simp [baseCatalog]⟩
    simp only [exercise_recommendations, if_neg hg]

/-- Witness for C7 at two concrete profiles, one with goal "lose" and one
with the default goal. -/
theorem exercise_recommendations_by_goal_witness :
    exercise_recommendations (some ⟨none, none, none, none, none, some "lose"⟩) =
      [⟨"Brisk Walking", some "Moderate", none, 40, "cardio",
          some "Fat-loss focus: try intervals."⟩,
       ⟨"Jogging", some "Heavy", none, 30, "cardio",
          some "Fat-loss focus: try intervals."⟩,
       ⟨"Cycling (leisure)", some "Low", none, 40, "cardio",
          some "Fat-loss focus: try intervals."⟩,
       ⟨"Bodyweight Circuit", some "Moderate", none, 35, "strength",
          some "Fat-loss focus: try intervals."⟩,
       ⟨"Swimming (moderate)", some "Moderate", none, 35, "cardio",
          some "Fat-loss focus: try intervals."⟩,
       ⟨"Walk after meals", none, some 3.3, 10, "habit",
          some "Light post-meal walk 2–3x/day"⟩] ∧
    exercise_recommendations (some ⟨none, none, none, none, none, none⟩) =
      baseCatalog ++
        [⟨"Full-body strength 2x/week", none, some 5.0, 40, "strength", none⟩] :=
  ⟨(exercise_recommendations_by_goal _).1 (by decide),
   ((exercise_recommendations_by_goal _).2 (by decide)).1⟩

/-- C10: for every input, the Metrics result is all-or-nothing: either all
four fields are unknown, or all four are present. -/
theorem metrics_all_or_nothing (p : Option Profile) :
    calculate_metrics p = ⟨none, none, none, none⟩ ∨
    ((calculate_metrics p).bmi.isSome ∧ (calculate_metrics p).bmr.isSome ∧
     (calculate_metrics p).tdee.isSome ∧ (calculate_metrics p).target_calories.isSome) := by
  cases p with
  | none => exact Or.inl rfl
  | some q =>
    cases hb : (truthyQ q.height_in && truthyQ q.weight_lb && truthyZ q.age && truthyS q.sex) with
    | false => exact Or.inl (by simp [calculate_metrics, hb])
    | true => exact Or.inr (by simp [calculate_metrics, hb])

end TrackingCalories
